import Mathlib

/-!
# TraderCat — verification of the strategy engine and runner

Shallow embedding of the TraderCat trading bot (Python) in Lean 4.

Conventions of the embedding:
* Python floats are modelled as rationals (`ℚ`); the program only performs
  field arithmetic and comparisons, which `ℚ` reproduces exactly.
* A Python value that may be `None` is an `Option ℚ` (or `Option` of a record).
* Fallible Python operations (indexing that can raise `IndexError`,
  comparisons against `None` that raise `TypeError`) live in `Except String`.
* Each strategy's `generate_signal` returns the `Except`-result paired with
  the list of indicator names it requested from the market-data provider,
  so that "number of provider calls" is observable.
* The provider is modelled by an `IndicatorEnv` record carrying the response
  series for each indicator the strategies request; `Option IndicatorEnv`
  models the optional `data_provider` constructor argument.
-/

namespace TraderCat

/-- Evaluation helper: `Int.toNat` of a numeral. -/
theorem intToNat_ofNat (n : ℕ) :
    (no_index (OfNat.ofNat n) : ℤ).toNat = OfNat.ofNat n := rfl

/-- Python list indexing, with negative-index support; out of range raises
`IndexError`. -/
def pyIdx {α : Type} (xs : List α) (i : ℤ) : Except String α :=
  let j : ℤ := if i < 0 then i + xs.length else i
  if 0 ≤ j then
    match xs.get? j.toNat with
    | some a => Except.ok a
    | none => Except.error "IndexError: list index out of range"
  else Except.error "IndexError: list index out of range"

/-- Python `a < b` on possibly-`None` numbers: `TypeError` if either side is
`None`. -/
def pyLt (a b : Option ℚ) : Except String Bool :=
  match a, b with
  | some x, some y => Except.ok (decide (x < y))
  | _, _ => Except.error "TypeError: comparison not supported with None"

/-- Python `a > b` on possibly-`None` numbers. -/
def pyGt (a b : Option ℚ) : Except String Bool :=
  match a, b with
  | some x, some y => Except.ok (decide (y < x))
  | _, _ => Except.error "TypeError: comparison not supported with None"

/-- Python `a <= b` on possibly-`None` numbers. -/
def pyLe (a b : Option ℚ) : Except String Bool :=
  match a, b with
  | some x, some y => Except.ok (decide (x ≤ y))
  | _, _ => Except.error "TypeError: comparison not supported with None"

/-- Python `a >= b` on possibly-`None` numbers. -/
def pyGe (a b : Option ℚ) : Except String Bool :=
  match a, b with
  | some x, some y => Except.ok (decide (y ≤ x))
  | _, _ => Except.error "TypeError: comparison not supported with None"

/-- Python truthiness of a possibly-`None` number: `None` and `0` are falsy. -/
def truthyQ : Option ℚ → Bool
  | none => false
  | some x => decide (x ≠ 0)

/-- `statistics.mean` on rationals. -/
def pymean (xs : List ℚ) : ℚ := xs.sum / (xs.length : ℚ)

/-- One candle: `{timestamp, open, high, low, close, volume}`
(src/trade_bot — candles come from `OpenBBProvider.get_price_data`). -/
structure Candle where
  timestamp : ℤ := 0
  open_ : ℚ := 0
  high : ℚ := 0
  low : ℚ := 0
  close : ℚ := 0
  volume : ℚ := 0
deriving DecidableEq

instance : Inhabited Candle := ⟨{}⟩

/-- One indicator point.  The strategies read these attributes verbatim
(provider field-naming contract); an attribute whose value is `None` is
`none`. -/
structure IndicatorPoint where
  close_RSI_14 : Option ℚ := none
  close_MACD_12_26_9 : Option ℚ := none
  close_MACDs_12_26_9 : Option ℚ := none
  STOCHk_14_3_3 : Option ℚ := none
  STOCHd_14_3_3 : Option ℚ := none
  close_EMA_10 : Option ℚ := none
  close_SMA_20 : Option ℚ := none
  close_BBU_20_2_0 : Option ℚ := none
  close_BBL_20_2_0 : Option ℚ := none
deriving DecidableEq

instance : Inhabited IndicatorPoint := ⟨{}⟩

/-- A diagnostic value stored in `SignalModel.details`. -/
inductive DetailVal where
  | onum : Option ℚ → DetailVal
  | str : String → DetailVal
  | strList : List String → DetailVal
  | opoint : Option IndicatorPoint → DetailVal
deriving DecidableEq

/-- `SignalModel` (src/trade_bot/strategy/signal_model.py): pydantic model
with defaults `reason="N/A"`, `details={}`. `details` is an ordered string
map, modelled as an association list. -/
structure SignalModel where
  symbol : String
  strategy : String
  signal : String
  reason : String := "N/A"
  details : List (String × DetailVal) := []
deriving DecidableEq

/-- The provider's responses for the indicator series the strategies request
(`OpenBBProvider.get_indicator`, keyed by indicator name). -/
structure IndicatorEnv where
  rsi : List IndicatorPoint := []
  macd : List IndicatorPoint := []
  stoch : List IndicatorPoint := []
  ema : List IndicatorPoint := []
  sma : List IndicatorPoint := []
  bbands : List IndicatorPoint := []
deriving DecidableEq

/-! ## HiddenDivergenceStrategy
(src/trade_bot/strategy/hidden_divergence_strategy.py) -/

/-- Constructor parameters of `HiddenDivergenceStrategy.__init__`. -/
structure HiddenDivergenceConfig where
  ema_period : ℕ := 50
  swing_window : ℕ := 1
  rsi_period : ℕ := 14
  macd_fast : ℕ := 12
  macd_slow : ℕ := 26
  macd_signal : ℕ := 9
  kdj_fast_k_period : ℕ := 14
  kdj_slow_d_period : ℕ := 3
  kdj_slow_k_period : ℕ := 3
deriving DecidableEq

/-- Loop body of `HiddenDivergenceStrategy.calculate_ema` at index `i`,
with `prev` the last appended entry (`ema[-1]`).  The subtractions
`period - 1` are on ℕ, which agrees with the Python `int` comparisons for
`period ≥ 1` (for `period = 0` the Python loop would crash on `None`
arithmetic; no caller uses it). -/
def emaEntry (prices : List ℚ) (mult : ℚ) (period : ℕ) (i : ℕ)
    (prev : Option ℚ) : Option ℚ :=
  if i < period - 1 then none
  else if i = period - 1 then some (pymean (prices.take period))
  else
    match prev with
    | some p => some ((prices.getD i 0 - p) * mult + p)
    | none => none

/-- The loop of `calculate_ema`: one `emaEntry` per index `i` (counted down
by `fuel`), carrying the last appended entry (`ema[-1]`) as `prev`. -/
def emaGo (prices : List ℚ) (mult : ℚ) (period : ℕ) :
    ℕ → ℕ → Option ℚ → List (Option ℚ)
  | 0, _, _ => []
  | fuel + 1, i, prev =>
    let entry := emaEntry prices mult period i prev
    entry :: emaGo prices mult period fuel (i + 1) entry

/-- `HiddenDivergenceStrategy.calculate_ema(prices, period)`:
`multiplier = 2 / (period + 1)`, then one pass over `range(len(prices))`. -/
def calculate_ema (prices : List ℚ) (period : ℕ) : List (Option ℚ) :=
  emaGo prices (2 / ((period : ℚ) + 1)) period prices.length 0 none

/-- `HiddenDivergenceStrategy.detect_swing_points(data, window)`: indices
`i ∈ range(window, len(data) - window)` whose high (resp. low) strictly
exceeds (resp. is strictly below) every neighbour within `window` positions
on both sides. -/
def detect_swing_points (data : List Candle) (window : ℕ) : List ℕ × List ℕ :=
  let idxs := List.range' window (data.length - window - window)
  let isSwingHigh := fun i => (List.range' 1 window).all fun j =>
    decide ((data.getD (i - j) default).high < (data.getD i default).high) &&
    decide ((data.getD (i + j) default).high < (data.getD i default).high)
  let isSwingLow := fun i => (List.range' 1 window).all fun j =>
    decide ((data.getD i default).low < (data.getD (i - j) default).low) &&
    decide ((data.getD i default).low < (data.getD (i + j) default).low)
  (idxs.filter isSwingHigh, idxs.filter isSwingLow)

/-- `3 * k - 2 * d if k and d else None`: the derived stochastic J value,
guarded by Python truthiness of K and D. -/
def jValue (k d : Option ℚ) : Option ℚ :=
  if truthyQ k && truthyQ d then
    match k, d with
    | some kv, some dv => some (3 * kv - 2 * dv)
    | _, _ => none
  else none

/-- Reads the named field of `points[i]` if the series is truthy (non-empty),
after the pattern `series[i].field if series else None` used throughout the
strategies. -/
def fieldAt (points : List IndicatorPoint) (i : ℤ)
    (f : IndicatorPoint → Option ℚ) : Except String (Option ℚ) :=
  if points.isEmpty then Except.ok none
  else do
    let p ← pyIdx points i
    Except.ok (f p)

/-- Result record with signal `hold` and a given reason, as built by the
early-return paths of `HiddenDivergenceStrategy.generate_signal`. -/
def hiddenHold (symbol reason : String) : SignalModel :=
  { symbol := symbol, strategy := "Hidden Divergence", signal := "hold",
    reason := reason, details := [] }

/-- Body of `HiddenDivergenceStrategy.generate_signal` past the two guards
(indicator series already fetched into `env`). -/
def HiddenDivergenceStrategy.body (cfg : HiddenDivergenceConfig)
    (symbol : String) (candles : List Candle) (env : IndicatorEnv) :
    Except String SignalModel := do
  let rsi := env.rsi
  let macd := env.macd
  let kdj := env.stoch
  let closing_prices := candles.map (·.close)
  let ema_values := calculate_ema closing_prices cfg.ema_period
  let currentBar ← pyIdx candles (-1)
  let current_price := currentBar.close
  let current_ema ← pyIdx ema_values (-1)
  let trendUp ← pyGt (some current_price) current_ema
  let trend := if trendUp then "uptrend" else "downtrend"
  let swings := detect_swing_points candles cfg.swing_window
  let swing_highs := swings.1
  let swing_lows := swings.2
  let last_swing_index : Option ℕ :=
    if trend = "uptrend" ∧ ¬ swing_lows.isEmpty then swing_lows.getLast?
    else if trend = "downtrend" ∧ ¬ swing_highs.isEmpty then swing_highs.getLast?
    else none
  match last_swing_index with
  | none =>
    Except.ok (hiddenHold symbol "No valid swing point for divergence comparison.")
  | some idx =>
    if candles.length - 1 ≤ idx then
      Except.ok (hiddenHold symbol "No valid swing point for divergence comparison.")
    else do
      let swingBar ← pyIdx candles (idx : ℤ)
      let swing_price := swingBar.close
      let current_rsi ← fieldAt rsi (-1) (·.close_RSI_14)
      let swing_rsi ← fieldAt rsi (idx : ℤ) (·.close_RSI_14)
      let current_macd ← fieldAt macd (-1) (·.close_MACD_12_26_9)
      let swing_macd ← fieldAt macd (idx : ℤ) (·.close_MACD_12_26_9)
      let current_kdj_k ← fieldAt kdj (-1) (·.STOCHk_14_3_3)
      let current_kdj_d ← fieldAt kdj (-1) (·.STOCHd_14_3_3)
      let current_kdj_j := jValue current_kdj_k current_kdj_d
      let swing_kdj_k ← fieldAt kdj (idx : ℤ) (·.STOCHk_14_3_3)
      let swing_kdj_d ← fieldAt kdj (idx : ℤ) (·.STOCHd_14_3_3)
      let swing_kdj_j := jValue swing_kdj_k swing_kdj_d
      let details := [("current_rsi", DetailVal.onum current_rsi),
                      ("swing_rsi", DetailVal.onum swing_rsi),
                      ("current_macd", DetailVal.onum current_macd),
                      ("swing_macd", DetailVal.onum swing_macd),
                      ("current_kdj_j", DetailVal.onum current_kdj_j),
                      ("swing_kdj_j", DetailVal.onum swing_kdj_j)]
      let sigReasons ←
        if trend = "uptrend" ∧ swing_price < current_price then do
          let b1 ← pyLt current_rsi swing_rsi
          let b2 ← pyLt current_macd swing_macd
          let b3 ← pyLt current_kdj_j swing_kdj_j
          let reasons :=
            (if b1 then ["Hidden bearish divergence: Price higher, RSI lower."] else []) ++
            (if b2 then ["Hidden bearish divergence: Price higher, MACD lower."] else []) ++
            (if b3 then ["Hidden bearish divergence: Price higher, KDJ J lower."] else [])
          Except.ok (if 2 ≤ reasons.length then ("sell", reasons) else ("hold", reasons))
        else if trend = "downtrend" ∧ current_price < swing_price then do
          let b1 ← pyGt current_rsi swing_rsi
          let b2 ← pyGt current_macd swing_macd
          let b3 ← pyGt current_kdj_j swing_kdj_j
          let reasons :=
            (if b1 then ["Hidden bullish divergence: Price lower, RSI higher."] else []) ++
            (if b2 then ["Hidden bullish divergence: Price lower, MACD higher."] else []) ++
            (if b3 then ["Hidden bullish divergence: Price lower, KDJ J higher."] else [])
          Except.ok (if 2 ≤ reasons.length then ("buy", reasons) else ("hold", reasons))
        else
          Except.ok (("hold", []) : String × List String)
      Except.ok { symbol := symbol, strategy := "Hidden Divergence",
                  signal := sigReasons.1,
                  reason := if sigReasons.2.isEmpty then "No Signal Detected"
                            else String.intercalate "; " sigReasons.2,
                  details := details }

/-- `HiddenDivergenceStrategy.generate_signal`: candle-count guard, provider
guard, then three indicator calls and the divergence comparison.  The second
component lists the indicator names requested from the provider. -/
def HiddenDivergenceStrategy.generate_signal (cfg : HiddenDivergenceConfig)
    (symbol : String) (candles : List Candle) (provider : Option IndicatorEnv) :
    Except String SignalModel × List String :=
  if candles.length < max cfg.ema_period 3 then
    (Except.ok { symbol := symbol, strategy := "Hidden Divergence",
                 signal := "hold",
                 details := [("reason", DetailVal.str
                   "Insufficient candles data for swing point and trend analysis.")] },
     [])
  else
    match provider with
    | none => (Except.ok (hiddenHold symbol "Data provider not set."), [])
    | some env =>
      (HiddenDivergenceStrategy.body cfg symbol candles env, ["rsi", "macd", "stoch"])

/-! ## DivergenceStrategy
(src/trade_bot/strategy/divergence_strategy.py) -/

/-- Constructor parameters of `DivergenceStrategy.__init__`. -/
structure DivergenceConfig where
  bb_period : ℕ := 20
  rsi_period : ℕ := 14
  macd_fast : ℕ := 12
  macd_slow : ℕ := 26
  macd_signal : ℕ := 9
  kdj_fast_k_period : ℕ := 14
  kdj_slow_d_period : ℕ := 3
  kdj_slow_k_period : ℕ := 3
deriving DecidableEq

/-- The values `DivergenceStrategy.generate_signal` extracts from the candle
and indicator series before its branch logic (source lines 123-166). -/
structure DivData where
  previous_close : ℚ
  current_close : ℚ
  previous_volume : ℚ
  current_volume : ℚ
  previous_rsi : Option ℚ
  current_rsi : Option ℚ
  previous_macd : Option ℚ
  current_macd : Option ℚ
  previous_macd_signal : Option ℚ
  current_macd_signal : Option ℚ
  previous_kdj_k : Option ℚ
  previous_kdj_d : Option ℚ
  current_kdj_k : Option ℚ
  current_kdj_d : Option ℚ
  macd_bullish_cross : Bool
  macd_bearish_cross : Bool
  kdj_bullish_cross : Bool
  kdj_bearish_cross : Bool
deriving DecidableEq

/-- Two-point bullish crossover with explicit `is not None` guards, as in
`macd_bullish_cross` / `kdj_bullish_cross` (`prev <= prevSig and cur > curSig`,
short-circuited behind the `None` checks). -/
def bullishCross (prev prevSig cur curSig : Option ℚ) : Bool :=
  match prev, prevSig, cur, curSig with
  | some p, some ps, some c, some cs => decide (p ≤ ps) && decide (cs < c)
  | _, _, _, _ => false

/-- Two-point bearish crossover with explicit `is not None` guards
(`prev >= prevSig and cur < curSig`). -/
def bearishCross (prev prevSig cur curSig : Option ℚ) : Bool :=
  match prev, prevSig, cur, curSig with
  | some p, some ps, some c, some cs => decide (ps ≤ p) && decide (c < cs)
  | _, _, _, _ => false

/-- Extraction step of `DivergenceStrategy.generate_signal`: reads recent
closes/volumes and indicator values, then computes the four crossover flags. -/
def DivergenceStrategy.extract (candles : List Candle) (env : IndicatorEnv) :
    Except String DivData := do
  let previousBar ← pyIdx candles (-2)
  let currentBar ← pyIdx candles (-1)
  let previous_rsi ← fieldAt env.rsi (-2) (·.close_RSI_14)
  let current_rsi ← fieldAt env.rsi (-1) (·.close_RSI_14)
  let previous_macd ← fieldAt env.macd (-2) (·.close_MACD_12_26_9)
  let current_macd ← fieldAt env.macd (-1) (·.close_MACD_12_26_9)
  let previous_macd_signal ← fieldAt env.macd (-2) (·.close_MACDs_12_26_9)
  let current_macd_signal ← fieldAt env.macd (-1) (·.close_MACDs_12_26_9)
  let previous_kdj_k ← fieldAt env.stoch (-2) (·.STOCHk_14_3_3)
  let previous_kdj_d ← fieldAt env.stoch (-2) (·.STOCHd_14_3_3)
  let current_kdj_k ← fieldAt env.stoch (-1) (·.STOCHk_14_3_3)
  let current_kdj_d ← fieldAt env.stoch (-1) (·.STOCHd_14_3_3)
  Except.ok
    { previous_close := previousBar.close
      current_close := currentBar.close
      previous_volume := previousBar.volume
      current_volume := currentBar.volume
      previous_rsi := previous_rsi
      current_rsi := current_rsi
      previous_macd := previous_macd
      current_macd := current_macd
      previous_macd_signal := previous_macd_signal
      current_macd_signal := current_macd_signal
      previous_kdj_k := previous_kdj_k
      previous_kdj_d := previous_kdj_d
      current_kdj_k := current_kdj_k
      current_kdj_d := current_kdj_d
      macd_bullish_cross :=
        bullishCross previous_macd previous_macd_signal current_macd current_macd_signal
      macd_bearish_cross :=
        bearishCross previous_macd previous_macd_signal current_macd current_macd_signal
      kdj_bullish_cross :=
        bullishCross previous_kdj_k previous_kdj_d current_kdj_k current_kdj_d
      kdj_bearish_cross :=
        bearishCross previous_kdj_k previous_kdj_d current_kdj_k current_kdj_d }

/-- The bullish RSI sub-condition `current_rsi > previous_rsi and
current_rsi < 30` — unguarded in the source, so a `None` on either side
raises `TypeError` (Python `and` short-circuits). -/
def rsiBullCondM (cur prev : Option ℚ) : Except String Bool := do
  let g ← pyGt cur prev
  if g then pyLt cur (some 30) else Except.ok false

/-- The bearish RSI sub-condition `current_rsi < previous_rsi and
current_rsi > 70` — unguarded in the source. -/
def rsiBearCondM (cur prev : Option ℚ) : Except String Bool := do
  let g ← pyLt cur prev
  if g then pyGt cur (some 70) else Except.ok false

/-- The sub-condition `flag and value < threshold` (Python short-circuit:
the comparison — which raises on `None` — only runs when `flag` is true). -/
def flagLtCondM (flag : Bool) (v : Option ℚ) (t : ℚ) : Except String Bool :=
  if flag then pyLt v (some t) else Except.ok false

/-- The sub-condition `flag and value > threshold`. -/
def flagGtCondM (flag : Bool) (v : Option ℚ) (t : ℚ) : Except String Bool :=
  if flag then pyGt v (some t) else Except.ok false

/-- Branch logic of `DivergenceStrategy.generate_signal` (source lines
168-191): bullish branch gated by `current_volume >= 1.2 * previous_volume`,
bearish branch without a volume gate. -/
def DivergenceStrategy.decideSignal (d : DivData) :
    Except String (String × List String) := do
  if d.current_close < d.previous_close then do
    let b1 ← rsiBullCondM d.current_rsi d.previous_rsi
    let b2 ← flagLtCondM d.macd_bullish_cross d.current_macd 0
    let b3 ← flagLtCondM d.kdj_bullish_cross d.current_kdj_k 20
    let reasons := (if b1 then ["Bullish RSI divergence"] else []) ++
                   (if b2 then ["Bullish MACD cross-over"] else []) ++
                   (if b3 then ["Bullish KDJ cross-over"] else [])
    let signal := if 2 ≤ reasons.length ∧ 1.2 * d.previous_volume ≤ d.current_volume
                  then "buy" else "hold"
    Except.ok (if reasons.isEmpty then "hold" else signal, reasons)
  else if d.previous_close < d.current_close then do
    let b1 ← rsiBearCondM d.current_rsi d.previous_rsi
    let b2 ← flagGtCondM d.macd_bearish_cross d.current_macd 0
    let b3 ← flagGtCondM d.kdj_bearish_cross d.current_kdj_k 80
    let reasons := (if b1 then ["Bearish RSI divergence"] else []) ++
                   (if b2 then ["Bearish MACD cross-over"] else []) ++
                   (if b3 then ["Bearish KDJ cross-over"] else [])
    let signal := if 2 ≤ reasons.length then "sell" else "hold"
    Except.ok (if reasons.isEmpty then "hold" else signal, reasons)
  else
    Except.ok ("hold", [])

/-- `DivergenceStrategy.generate_signal`: candle-count guard (< 3), provider
guard, three indicator calls, extraction, branch logic.  The numeric
parameters in `cfg` only feed the provider requests (modelled by the
indicator names in the call list) and do not branch the logic. -/
def DivergenceStrategy.generate_signal (_cfg : DivergenceConfig)
    (symbol : String) (candles : List Candle)
    (provider : Option IndicatorEnv) : Except String SignalModel × List String :=
  if candles.length < 3 then
    (Except.ok { symbol := symbol, strategy := "Divergence", signal := "hold",
                 reason := "Insufficient candles data for divergence analysis.",
                 details := [] }, [])
  else
    match provider with
    | none =>
      (Except.ok { symbol := symbol, strategy := "Divergence", signal := "hold",
                   reason := "Data provider not set.", details := [] }, [])
    | some env =>
      ((do
          let d ← DivergenceStrategy.extract candles env
          let sigReasons ← DivergenceStrategy.decideSignal d
          Except.ok { symbol := symbol, strategy := "Divergence",
                      signal := sigReasons.1,
                      reason := if sigReasons.2.isEmpty then "No Signal Detected"
                                else String.intercalate "; " sigReasons.2,
                      details := [] }),
       ["rsi", "macd", "stoch"])

/-! ## MAStrategy (src/trade_bot/strategy/ma_strategy.py) -/

/-- Constructor parameters of `MAStrategy.__init__`. -/
structure MAConfig where
  ema_period : ℕ := 10
  sma_period : ℕ := 20
  rsi_period : ℕ := 14
  macd_fast : ℕ := 12
  macd_slow : ℕ := 26
  macd_signal : ℕ := 9
  volume_window : ℕ := 5
deriving DecidableEq

/-- The condition values `MAStrategy.generate_signal` computes before its
signal decision (source lines 113-143). -/
structure MAData where
  ema_sma_bullish : Bool
  ema_sma_bearish : Bool
  macd_bullish : Bool
  macd_bearish : Bool
  curr_rsi : Option ℚ
  vol_rise : Bool
deriving DecidableEq

/-- Average of the `window` volumes preceding the current period
(`sum(volumes[-window-1:-1]) / window`). -/
def trailingAvgVol (volumes : List ℚ) (window : ℕ) : ℚ :=
  ((volumes.drop (volumes.length - (window + 1))).dropLast).sum / (window : ℚ)

/-- The EMA/SMA crossover block of `MAStrategy.generate_signal`
(`prev_ema < prev_sma and curr_ema > curr_sma` and its bearish mirror,
comparisons unguarded against `None` fields). -/
def MAStrategy.emaSmaFlags (ema sma : List IndicatorPoint) :
    Except String (Bool × Bool) :=
  if 2 ≤ ema.length ∧ 2 ≤ sma.length then do
    let prevE ← pyIdx ema (-2)
    let currE ← pyIdx ema (-1)
    let prevS ← pyIdx sma (-2)
    let currS ← pyIdx sma (-1)
    let bull ← do
      let g ← pyLt prevE.close_EMA_10 prevS.close_SMA_20
      if g then pyGt currE.close_EMA_10 currS.close_SMA_20 else Except.ok false
    let bear ← do
      let g ← pyGt prevE.close_EMA_10 prevS.close_SMA_20
      if g then pyLt currE.close_EMA_10 currS.close_SMA_20 else Except.ok false
    Except.ok (bull, bear)
  else Except.ok (false, false)

/-- The MACD crossover block of `MAStrategy.generate_signal`
(`prev <= prevSig and cur > curSig` / `prev >= prevSig and cur < curSig`,
comparisons unguarded against `None` fields). -/
def MAStrategy.macdFlags (macd : List IndicatorPoint) :
    Except String (Bool × Bool) :=
  if 2 ≤ macd.length then do
    let prevM ← pyIdx macd (-2)
    let currM ← pyIdx macd (-1)
    let bull ← do
      let g ← pyLe prevM.close_MACD_12_26_9 prevM.close_MACDs_12_26_9
      if g then pyGt currM.close_MACD_12_26_9 currM.close_MACDs_12_26_9
      else Except.ok false
    let bear ← do
      let g ← pyGe prevM.close_MACD_12_26_9 prevM.close_MACDs_12_26_9
      if g then pyLt currM.close_MACD_12_26_9 currM.close_MACDs_12_26_9
      else Except.ok false
    Except.ok (bull, bear)
  else Except.ok (false, false)

/-- The volume-surge flag of `MAStrategy.generate_signal`:
`current volume > 1.2 × average of the window volumes preceding it`,
false when fewer than `window + 1` volumes exist. -/
def MAStrategy.volRise (volumes : List ℚ) (window : ℕ) : Bool :=
  if window + 1 ≤ volumes.length then
    decide (1.2 * trailingAvgVol volumes window < volumes.getLastD 0)
  else false

/-- Extraction step of `MAStrategy.generate_signal`: the two moving-average
crossover flags, the MACD crossover flags, the current RSI and the
volume-surge flag.  Note there is no candle-count guard in this strategy. -/
def MAStrategy.extract (cfg : MAConfig) (candles : List Candle)
    (env : IndicatorEnv) : Except String MAData := do
  let volumes := candles.map (·.volume)
  let emaSma ← MAStrategy.emaSmaFlags env.ema env.sma
  let macdF ← MAStrategy.macdFlags env.macd
  let curr_rsi ← fieldAt env.rsi (-1) (·.close_RSI_14)
  Except.ok
    { ema_sma_bullish := emaSma.1, ema_sma_bearish := emaSma.2,
      macd_bullish := macdF.1, macd_bearish := macdF.2,
      curr_rsi := curr_rsi, vol_rise := MAStrategy.volRise volumes cfg.volume_window }

/-- Diagnostic reasons of `MAStrategy.generate_signal` (source lines
145-153), accumulated independently of the final decision — note the
`RSI above 50` diagnostic against the `RSI < 30` buy condition. -/
def MAStrategy.reasonsList (d : MAData) : List String :=
  (if d.ema_sma_bullish then ["EMA crosses above SMA (bullish)"] else []) ++
  (if d.macd_bullish then ["MACD bullish crossover"] else []) ++
  (if (match d.curr_rsi with | some r => decide (50 < r) | none => false)
   then ["RSI above 50"] else []) ++
  (if d.vol_rise then ["Volume surge"] else [])

/-- Decision step of `MAStrategy.generate_signal` (source lines 145-161):
the all-four-conditions conjunction for buy (RSI < 30) / sell (RSI > 70). -/
def MAStrategy.decideSignal (d : MAData) : String × List String :=
  let reasons := MAStrategy.reasonsList d
  let signal :=
    if d.ema_sma_bullish && d.macd_bullish &&
       (match d.curr_rsi with | some r => decide (r < 30) | none => false) &&
       d.vol_rise then "buy"
    else if d.ema_sma_bearish && d.macd_bearish &&
       (match d.curr_rsi with | some r => decide (70 < r) | none => false) &&
       d.vol_rise then "sell"
    else "hold"
  (signal, reasons)

/-- `MAStrategy.generate_signal`: provider guard only; with a provider
attached it always requests `ema`, `sma`, `macd` and `rsi` — there is no
candle-count guard. -/
def MAStrategy.generate_signal (cfg : MAConfig) (symbol : String)
    (candles : List Candle) (provider : Option IndicatorEnv) :
    Except String SignalModel × List String :=
  match provider with
  | none =>
    (Except.ok { symbol := symbol, strategy := "Moving Average", signal := "hold",
                 reason := "Data provider not set.", details := [] }, [])
  | some env =>
    ((do
        let d ← MAStrategy.extract cfg candles env
        let sigReasons := MAStrategy.decideSignal d
        Except.ok { symbol := symbol, strategy := "Moving Average",
                    signal := sigReasons.1,
                    reason := if sigReasons.2.isEmpty then "No Signal Detected"
                              else String.intercalate "; " sigReasons.2,
                    details := [] }),
     ["ema", "sma", "macd", "rsi"])

/-! ## BollingerBandStrategy
(src/trade_bot/strategy/bollinger_band_strategy.py) -/

/-- Constructor parameters of `BollingerBandStrategy.__init__`. -/
structure BollingerConfig where
  bb_period : ℕ := 20
  bb_std : ℚ := 2
  rsi_period : ℕ := 14
  macd_fast : ℕ := 12
  macd_slow : ℕ := 26
  macd_signal : ℕ := 9
  kdj_fast_k_period : ℕ := 14
  kdj_slow_d_period : ℕ := 3
  kdj_slow_k_period : ℕ := 3
  volume_window : ℕ := 5
deriving DecidableEq

/-- The candle-count threshold of the Bollinger guard:
`max(bb_period, rsi_period, macd_slow, kdj_fast_k_period, volume_window) + 2`. -/
def bollingerMinCandles (cfg : BollingerConfig) : ℕ :=
  max cfg.bb_period (max cfg.rsi_period (max cfg.macd_slow
    (max cfg.kdj_fast_k_period cfg.volume_window))) + 2

/-- Body of `BollingerBandStrategy.generate_signal` past the two guards. -/
def BollingerBandStrategy.body (cfg : BollingerConfig) (symbol : String)
    (candles : List Candle) (env : IndicatorEnv) : Except String SignalModel := do
  let currentBar ← pyIdx candles (-1)
  let current_close := currentBar.close
  let current_volume := currentBar.volume
  let current_rsi ← fieldAt env.rsi (-1) (·.close_RSI_14)
  let previous_macd ← fieldAt env.macd (-2) (·.close_MACD_12_26_9)
  let current_macd ← fieldAt env.macd (-1) (·.close_MACD_12_26_9)
  let previous_macd_signal ← fieldAt env.macd (-2) (·.close_MACDs_12_26_9)
  let current_macd_signal ← fieldAt env.macd (-1) (·.close_MACDs_12_26_9)
  let previous_kdj_k ← fieldAt env.stoch (-2) (·.STOCHk_14_3_3)
  let previous_kdj_d ← fieldAt env.stoch (-2) (·.STOCHd_14_3_3)
  let current_kdj_k ← fieldAt env.stoch (-1) (·.STOCHk_14_3_3)
  let current_kdj_d ← fieldAt env.stoch (-1) (·.STOCHd_14_3_3)
  let bb_last : Option IndicatorPoint ←
    if env.bbands.isEmpty then Except.ok none
    else do
      let p ← pyIdx env.bbands (-1)
      Except.ok (some p)
  let bb_upper := match bb_last with
    | some p => p.close_BBU_20_2_0
    | none => none
  let bb_lower := match bb_last with
    | some p => p.close_BBL_20_2_0
    | none => none
  let macd_bullish_cross :=
    bullishCross previous_macd previous_macd_signal current_macd current_macd_signal
  let macd_bearish_cross :=
    bearishCross previous_macd previous_macd_signal current_macd current_macd_signal
  let kdj_bullish_cross :=
    bullishCross previous_kdj_k previous_kdj_d current_kdj_k current_kdj_d
  let kdj_bearish_cross :=
    bearishCross previous_kdj_k previous_kdj_d current_kdj_k current_kdj_d
  let volumes := (candles.drop (candles.length - (cfg.volume_window + 1))).map (·.volume)
  let avg_vol : Option ℚ :=
    if cfg.volume_window < volumes.length then
      some (volumes.dropLast.sum / (cfg.volume_window : ℚ))
    else none
  let vol_spike := truthyQ avg_vol &&
    (match avg_vol with
     | some a => decide (1.2 * a < current_volume)
     | none => false)
  let sigReasons : String × List String :=
    if (match bb_lower with | some l => decide (current_close < l) | none => false) &&
       (match current_rsi with | some r => decide (r < 30) | none => false) &&
       macd_bullish_cross && kdj_bullish_cross && vol_spike then
      ("buy", ["Price below BB lower, RSI oversold, MACD/KDJ bullish cross, volume spike"])
    else if (match bb_upper with | some u => decide (u < current_close) | none => false) &&
       (match current_rsi with | some r => decide (70 < r) | none => false) &&
       macd_bearish_cross && kdj_bearish_cross && vol_spike then
      ("sell", ["Price above BB upper, RSI overbought, MACD/KDJ bearish cross, volume spike"])
    else
      let reasons :=
        (if truthyQ bb_lower &&
            (match bb_lower with | some l => decide (current_close < l) | none => false)
         then ["Price below BB lower"] else []) ++
        (if truthyQ bb_upper &&
            (match bb_upper with | some u => decide (u < current_close) | none => false)
         then ["Price above BB upper"] else []) ++
        (if (match current_rsi with | some r => decide (r < 30) | none => false)
         then ["RSI oversold"] else []) ++
        (if (match current_rsi with | some r => decide (70 < r) | none => false)
         then ["RSI overbought"] else []) ++
        (if macd_bullish_cross then ["MACD bullish cross"] else []) ++
        (if macd_bearish_cross then ["MACD bearish cross"] else []) ++
        (if kdj_bullish_cross then ["KDJ bullish cross"] else []) ++
        (if kdj_bearish_cross then ["KDJ bearish cross"] else []) ++
        (if vol_spike then ["Volume spike"] else [])
      ("hold", if reasons.isEmpty then ["No strong signal"] else reasons)
  let details := [("bb", DetailVal.opoint bb_last),
                  ("rsi", DetailVal.onum current_rsi),
                  ("macd", DetailVal.onum current_macd),
                  ("macd_signal", DetailVal.onum current_macd_signal),
                  ("kdj_k", DetailVal.onum current_kdj_k),
                  ("kdj_d", DetailVal.onum current_kdj_d),
                  ("volume", DetailVal.onum (some current_volume)),
                  ("avg_volume", DetailVal.onum avg_vol),
                  ("reasons", DetailVal.strList sigReasons.2)]
  Except.ok { symbol := symbol, strategy := "Bollinger Bands",
              signal := sigReasons.1,
              reason := if sigReasons.2.isEmpty then "No Signal Detected"
                        else String.intercalate "; " sigReasons.2,
              details := details }

/-- `BollingerBandStrategy.generate_signal`: candle-count guard first, then
provider guard, then four indicator calls and the confluence logic. -/
def BollingerBandStrategy.generate_signal (cfg : BollingerConfig)
    (symbol : String) (candles : List Candle) (provider : Option IndicatorEnv) :
    Except String SignalModel × List String :=
  if candles.length < bollingerMinCandles cfg then
    (Except.ok { symbol := symbol, strategy := "Bollinger Bands", signal := "hold",
                 reason := "Insufficient candles data", details := [] }, [])
  else
    match provider with
    | none =>
      (Except.ok { symbol := symbol, strategy := "Bollinger Bands", signal := "hold",
                   reason := "Data provider not set", details := [] }, [])
    | some env =>
      (BollingerBandStrategy.body cfg symbol candles env,
       ["bbands", "rsi", "macd", "stoch"])

/-! ## BotRunner — `run_all_bots` (src/trade_bot/main.py)

A per-symbol bot run either raises (modelled `Except.error`) or yields one
list of `SignalModel` (the single `yield` of `TradeBot.run`).  The runner
loop catches per-symbol failures, logging one error line each; successes
append `{symbol, signals}` to `all_signals`. -/

/-- The per-symbol collection loop of `run_all_bots`, front to back. -/
def collectLoop :
    List (String × Except String (List SignalModel)) →
    List (String × List SignalModel) × List String
  | [] => ([], [])
  | (sym, outcome) :: rest =>
    let acc := collectLoop rest
    match outcome with
    | Except.ok sigs => ((sym, sigs) :: acc.1, acc.2)
    | Except.error e =>
      (acc.1, ("Error running bot for symbol " ++ sym ++ ": " ++ e) :: acc.2)

/-- One digest line per signal:
`* *Symbol: {symbol}, Strategy: {strategy}, Signal: {signal}, Reason: {reason}*`. -/
def signalLine (symbol : String) (s : SignalModel) : String :=
  "* *Symbol: " ++ symbol ++ ", Strategy: " ++ s.strategy ++
  ", Signal: " ++ s.signal ++ ", Reason: " ++ s.reason ++ "*\n"

/-- Digest header with the date stamp. -/
def digestHeader (today : String) : String :=
  "** :money_with_wings: Daily [" ++ today ++ "] Trade Signals Summary: **\n"

/-- The digest lines, one per collected signal, in collection order (the
nested `for entry / for signal` loop of `run_all_bots`). -/
def signalLines (allSignals : List (String × List SignalModel)) : List String :=
  allSignals.flatMap fun e => e.2.map (signalLine e.1)

/-- The full digest message composed by `run_all_bots`. -/
def digestMessage (today : String)
    (allSignals : List (String × List SignalModel)) : String :=
  digestHeader today ++ String.join (signalLines allSignals)

/-- Observable outcome of one `run_all_bots` pass. -/
structure RunResult where
  collected : List (String × List SignalModel)
  errorLogs : List String
  sent : List String
deriving DecidableEq

/-- `run_all_bots`: collect per-symbol outcomes (failures caught and logged,
loop continues), then either skip notification (no `all_signals`) or
dispatch exactly one digest to the notifier. -/
def run_all_bots (today : String)
    (outcomes : List (String × Except String (List SignalModel))) : RunResult :=
  let acc := collectLoop outcomes
  if acc.1.isEmpty then
    { collected := acc.1, errorLogs := acc.2, sent := [] }
  else
    { collected := acc.1, errorLogs := acc.2, sent := [digestMessage today acc.1] }




/-- Closed form of the EMA entry at index `i`. -/
def emaVal (prices : List ℚ) (mult : ℚ) (period : ℕ) : ℕ → Option ℚ
  | 0 => emaEntry prices mult period 0 none
  | j + 1 => emaEntry prices mult period (j + 1) (emaVal prices mult period j)

theorem emaEntry_irrel (prices : List ℚ) (mult : ℚ) (period : ℕ) (i : ℕ)
    (prev prev' : Option ℚ) (h : i ≤ period - 1) :
    emaEntry prices mult period i prev = emaEntry prices mult period i prev' := by
  unfold emaEntry
  by_cases h1 : i < period - 1
  · simp [h1]
  · by_cases h2 : i = period - 1
    · simp [h1, h2]
    · omega

theorem emaGo_eq_map (prices : List ℚ) (mult : ℚ) (period : ℕ) :
    ∀ (fuel i : ℕ) (prev : Option ℚ),
      (i ≤ period - 1 ∨ prev = emaVal prices mult period (i - 1)) →
      emaGo prices mult period fuel i prev
        = (List.range' i fuel).map (emaVal prices mult period) := by
  intro fuel
  induction fuel with
  | zero => intro i prev _; simp [emaGo]
  | succ n ih =>
    intro i prev hprev
    have hentry : emaEntry prices mult period i prev = emaVal prices mult period i := by
      rcases hprev with h | h
      · cases i with
        | zero => exact emaEntry_irrel prices mult period 0 prev none (Nat.zero_le _)
        | succ j =>
          rw [show emaVal prices mult period (j + 1)
                = emaEntry prices mult period (j + 1) (emaVal prices mult period j) from rfl]
          exact emaEntry_irrel prices mult period (j + 1) prev _ h
      · cases i with
        | zero =>
          rw [show emaVal prices mult period 0
                = emaEntry prices mult period 0 none from rfl]
          exact emaEntry_irrel prices mult period 0 prev none (Nat.zero_le _)
        | succ j =>
          rw [show emaVal prices mult period (j + 1)
                = emaEntry prices mult period (j + 1) (emaVal prices mult period j) from rfl]
          simp only [Nat.add_sub_cancel] at h
          rw [h]
    rw [List.range'_succ, List.map_cons]
    show emaEntry prices mult period i prev ::
        emaGo prices mult period n (i + 1) (emaEntry prices mult period i prev) = _
    rw [hentry, ih (i + 1) _ (Or.inr (by simp))]

theorem calculate_ema_eq_map (prices : List ℚ) (period : ℕ) :
    calculate_ema prices period =
      (List.range prices.length).map
        (emaVal prices (2 / ((period : ℚ) + 1)) period) := by
  rw [calculate_ema, emaGo_eq_map prices _ period prices.length 0 none
    (Or.inl (Nat.zero_le _)), List.range_eq_range']

theorem emaVal_isSome (prices : List ℚ) (mult : ℚ) (period : ℕ)
    (hp : 1 ≤ period) :
    ∀ i, period - 1 ≤ i → ∃ q, emaVal prices mult period i = some q := by
  intro i
  induction i with
  | zero =>
    intro h
    have h0 : period = 1 := by omega
    refine ⟨pymean (prices.take period), ?_⟩
    show emaEntry prices mult period 0 none = _
    unfold emaEntry
    simp [h0]
  | succ j ih =>
    intro h
    show ∃ q, emaEntry prices mult period (j + 1) (emaVal prices mult period j) = some q
    by_cases h2 : j + 1 = period - 1
    · exact ⟨pymean (prices.take period), by unfold emaEntry; simp [h2]⟩
    · have h1 : ¬ (j + 1 < period - 1) := by omega
      obtain ⟨q, hq⟩ := ih (by omega)
      refine ⟨(prices.getD (j + 1) 0 - q) * mult + q, ?_⟩
      unfold emaEntry
      simp only [h1, h2, if_false]
      rw [hq]



theorem emaVal_warmup (prices : List ℚ) (mult : ℚ) (period : ℕ) (i : ℕ)
    (h : i + 1 < period) : emaVal prices mult period i = none := by
  cases i with
  | zero =>
    show emaEntry prices mult period 0 none = none
    unfold emaEntry
    have : 0 < period - 1 := by omega
    simp [this]
  | succ j =>
    show emaEntry prices mult period (j + 1) _ = none
    unfold emaEntry
    have : j + 1 < period - 1 := by omega
    simp [this]

theorem emaVal_seed (prices : List ℚ) (mult : ℚ) (period : ℕ)
    (hp : 1 ≤ period) :
    emaVal prices mult period (period - 1) = some (pymean (prices.take period)) := by
  rcases Nat.exists_eq_add_of_le hp with ⟨k, hk⟩
  cases k with
  | zero =>
    subst hk
    show emaEntry prices mult 1 0 none = _
    unfold emaEntry
    simp
  | succ m =>
    have : period - 1 = m + 1 := by omega
    rw [this]
    show emaEntry prices mult period (m + 1) _ = _
    unfold emaEntry
    have h1 : ¬ (m + 1 < period - 1) := by omega
    have h2 : m + 1 = period - 1 := by omega
    simp [h1, h2]

/-- C4: for every price list and period ≥ 1, `calculate_ema` returns a list
of the same length whose entries before index `period - 1` are `None`,
whose entry at index `period - 1` is the arithmetic mean of the first
`period` prices, and whose later entries follow the exponential recursion
with multiplier `2 / (period + 1)`; in particular for period 3 and prices
`[10, 20, 30, 40]` the result is `[None, None, 20, 30]`. -/
theorem calculate_ema_spec (prices : List ℚ) (period : ℕ) (hp : 1 ≤ period) :
    (calculate_ema prices period).length = prices.length ∧
    (∀ i, i + 1 < period → i < prices.length →
      (calculate_ema prices period).get? i = some none) ∧
    (period ≤ prices.length →
      (calculate_ema prices period).get? (period - 1) =
        some (some (pymean (prices.take period)))) ∧
    (∀ i, period ≤ i → i < prices.length →
      ∃ prev, (calculate_ema prices period).get? (i - 1) = some (some prev) ∧
        (calculate_ema prices period).get? i =
          some (some ((prices.getD i 0 - prev) * (2 / ((period : ℚ) + 1)) + prev))) ∧
    calculate_ema [10, 20, 30, 40] 3 = [none, none, some 20, some 30] := by
  refine ⟨?_, ?_, ?_, ?_, ?_⟩
  · rw [calculate_ema_eq_map]; simp
  · intro i h hi
    rw [calculate_ema_eq_map, List.get?_map, List.get?_range hi,
      Option.map_some', emaVal_warmup prices _ period i h]
  · intro hlen
    have hi : period - 1 < prices.length := by omega
    rw [calculate_ema_eq_map, List.get?_map, List.get?_range hi,
      Option.map_some', emaVal_seed prices _ period hp]
  · intro i hpi hi
    obtain ⟨j, rfl⟩ : ∃ j, i = j + 1 := ⟨i - 1, by omega⟩
    obtain ⟨prev, hprev⟩ :=
      emaVal_isSome prices (2 / ((period : ℚ) + 1)) period hp j (by omega)
    refine ⟨prev, ?_, ?_⟩
    · have hj : j < prices.length := by omega
      rw [calculate_ema_eq_map, List.get?_map]
      simp only [Nat.add_sub_cancel]
      rw [List.get?_range hj, Option.map_some', hprev]
    · rw [calculate_ema_eq_map, List.get?_map, List.get?_range hi, Option.map_some']
      show some (emaEntry prices _ period (j + 1) (emaVal prices _ period j)) = _
      unfold emaEntry
      have h1 : ¬ (j + 1 < period - 1) := by omega
      have h2 : ¬ (j + 1 = period - 1) := by omega
      simp only [h1, h2, if_false]
      rw [hprev]
  · norm_num [calculate_ema, emaGo, emaEntry, pymean]

/-- C4 witness: the specification evaluated at period 3 and prices
`[10, 20, 30, 40]`. -/
theorem calculate_ema_spec_witness :
    1 ≤ 3 ∧
    ((calculate_ema [10, 20, 30, 40] 3).length = 4 ∧
      (calculate_ema ([10, 20, 30, 40] : List ℚ) 3).get? 1 = some none ∧
      calculate_ema [10, 20, 30, 40] 3 = [none, none, some 20, some 30]) := by
  refine ⟨by norm_num, ?_⟩
  obtain ⟨h1, h2, h3, h4, h5⟩ := calculate_ema_spec [10, 20, 30, 40] 3 (by norm_num)
  exact ⟨by rw [h1]; norm_num, h2 1 (by norm_num) (by norm_num), h5⟩


/-! ## C9 — swing-point index bounds -/

/-- C9: every index returned by `detect_swing_points` with window `w ≥ 1`
on a list of length `n` lies in `[w, n - w - 1]`; in particular it is never
the index of the last candle, so the `last_swing_index >= len(candles) - 1`
arm of the guard in `generate_signal` is unreachable for `w ≥ 1`, and
indexing the candle or an index-aligned indicator series at the swing index
stays in bounds. -/
theorem detect_swing_points_bounds (data : List Candle) (w : ℕ) (hw : 1 ≤ w)
    (i : ℕ)
    (hi : i ∈ (detect_swing_points data w).1 ∨ i ∈ (detect_swing_points data w).2) :
    w ≤ i ∧ i + w + 1 ≤ data.length ∧ i < data.length - 1 := by
  have hmem : i ∈ List.range' w (data.length - w - w) := by
    rcases hi with h | h
    · simp only [detect_swing_points] at h
      exact List.mem_of_mem_filter h
    · simp only [detect_swing_points] at h
      exact List.mem_of_mem_filter h
  rw [List.mem_range'_1] at hmem
  omega

/-- Concrete three-candle series with a swing high and a swing low at the
middle index. -/
def wCandles : List Candle :=
  [{ high := 1, low := 1, close := 10, volume := 1 },
   { high := 5, low := 0, close := 20, volume := 1 },
   { high := 2, low := 2, close := 15, volume := 1 }]

/-- C9 witness: the bound applied to the swing high at index 1 of
`wCandles` with window 1. -/
theorem detect_swing_points_bounds_witness :
    (1 ≤ 1 ∧ 1 ∈ (detect_swing_points wCandles 1).1) ∧
    (1 ≤ 1 ∧ 1 + 1 + 1 ≤ wCandles.length ∧ 1 < wCandles.length - 1) :=
  ⟨⟨le_refl 1, by norm_num [detect_swing_points, wCandles, List.range']⟩,
   detect_swing_points_bounds wCandles 1 (le_refl 1) 1
     (Or.inl (by norm_num [detect_swing_points, wCandles, List.range']))⟩

/-! ## C1 — insufficient-data guards -/

/-- C1 (amended): the candle-count guards of the Divergence (< 3),
HiddenDivergence (< max(ema_period, 3)) and BollingerBand
(< max-lookback + 2) strategies return hold with an insufficient-data
reason, make zero provider calls and do not raise; MAStrategy has no such
guard — with a provider attached it always issues its four indicator
requests, whatever the candle count. -/
theorem insufficient_data_guards :
    (∀ (cfg : DivergenceConfig) (sym : String) (candles : List Candle)
       (prov : Option IndicatorEnv), candles.length < 3 →
       DivergenceStrategy.generate_signal cfg sym candles prov =
         (Except.ok { symbol := sym, strategy := "Divergence", signal := "hold",
                      reason := "Insufficient candles data for divergence analysis.",
                      details := [] }, [])) ∧
    (∀ (cfg : HiddenDivergenceConfig) (sym : String) (candles : List Candle)
       (prov : Option IndicatorEnv), candles.length < max cfg.ema_period 3 →
       HiddenDivergenceStrategy.generate_signal cfg sym candles prov =
         (Except.ok { symbol := sym, strategy := "Hidden Divergence",
                      signal := "hold", reason := "N/A",
                      details := [("reason", DetailVal.str
                        "Insufficient candles data for swing point and trend analysis.")] },
          [])) ∧
    (∀ (cfg : BollingerConfig) (sym : String) (candles : List Candle)
       (prov : Option IndicatorEnv), candles.length < bollingerMinCandles cfg →
       BollingerBandStrategy.generate_signal cfg sym candles prov =
         (Except.ok { symbol := sym, strategy := "Bollinger Bands", signal := "hold",
                      reason := "Insufficient candles data", details := [] }, [])) ∧
    (∀ (cfg : MAConfig) (sym : String) (candles : List Candle) (env : IndicatorEnv),
       (MAStrategy.generate_signal cfg sym candles (some env)).2 =
         ["ema", "sma", "macd", "rsi"]) := by
  refine ⟨?_, ?_, ?_, ?_⟩
  · intro cfg sym candles prov h
    simp [DivergenceStrategy.generate_signal, h]
  · intro cfg sym candles prov h
    simp [HiddenDivergenceStrategy.generate_signal, h]
  · intro cfg sym candles prov h
    simp [BollingerBandStrategy.generate_signal, h]
  · intro cfg sym candles env
    simp [MAStrategy.generate_signal]

/-- C1 witness: the three guards fired on an empty candle list, and the
MAStrategy call list on a one-candle input. -/
theorem insufficient_data_guards_witness :
    (([] : List Candle).length < 3 ∧
      DivergenceStrategy.generate_signal {} "A" [] none =
        (Except.ok { symbol := "A", strategy := "Divergence", signal := "hold",
                     reason := "Insufficient candles data for divergence analysis.",
                     details := [] }, [])) ∧
    (([] : List Candle).length < max ({} : HiddenDivergenceConfig).ema_period 3 ∧
      HiddenDivergenceStrategy.generate_signal {} "A" [] none =
        (Except.ok { symbol := "A", strategy := "Hidden Divergence",
                     signal := "hold", reason := "N/A",
                     details := [("reason", DetailVal.str
                       "Insufficient candles data for swing point and trend analysis.")] },
         [])) ∧
    (([] : List Candle).length < bollingerMinCandles {} ∧
      BollingerBandStrategy.generate_signal {} "A" [] none =
        (Except.ok { symbol := "A", strategy := "Bollinger Bands", signal := "hold",
                     reason := "Insufficient candles data", details := [] }, [])) ∧
    (MAStrategy.generate_signal {} "A" [{ close := 1, volume := 1 }] (some {})).2 =
      ["ema", "sma", "macd", "rsi"] :=
  ⟨⟨by norm_num, insufficient_data_guards.1 {} "A" [] none (by norm_num)⟩,
   ⟨by norm_num, insufficient_data_guards.2.1 {} "A" [] none (by norm_num)⟩,
   ⟨by norm_num [bollingerMinCandles],
    insufficient_data_guards.2.2.1 {} "A" [] none
      (by norm_num [bollingerMinCandles])⟩,
   insufficient_data_guards.2.2.2 {} "A" [{ close := 1, volume := 1 }] {}⟩

/-- C1 counterexample: with a provider attached, `MAStrategy.generate_signal`
on a single candle (below any positive candle minimum) makes its four
indicator calls and returns reason `No Signal Detected` — not an
insufficient-data reason with zero calls. -/
theorem ma_single_candle_counterexample :
    MAStrategy.generate_signal {} "AAPL" [{ close := 1, volume := 1 }] (some {}) =
      (Except.ok { symbol := "AAPL", strategy := "Moving Average",
                   signal := "hold", reason := "No Signal Detected", details := [] },
       ["ema", "sma", "macd", "rsi"]) := by
  norm_num [MAStrategy.generate_signal, MAStrategy.extract, MAStrategy.decideSignal,
    MAStrategy.emaSmaFlags, MAStrategy.macdFlags, MAStrategy.volRise,
    MAStrategy.reasonsList,
    fieldAt, pyIdx, trailingAvgVol, Except.bind, bind, pure, Except.pure,
    intToNat_ofNat, List.getD]

/-! ## C2 — missing indicator values crash instead of failing soft -/

/-- C2: on a falling three-candle series with every indicator series empty,
`DivergenceStrategy.generate_signal` reaches the unguarded comparison
`current_rsi > previous_rsi` with both sides `None` and raises `TypeError`
instead of failing the sub-condition — the evaluation errors after the
three provider calls were made. -/
theorem divergence_missing_rsi_raises :
    DivergenceStrategy.generate_signal {} "AAPL"
      [{ close := 5, volume := 1 }, { close := 4, volume := 1 },
       { close := 3, volume := 1 }] (some {}) =
      (Except.error "TypeError: comparison not supported with None",
       ["rsi", "macd", "stoch"]) := by
  norm_num [DivergenceStrategy.generate_signal, DivergenceStrategy.extract,
    DivergenceStrategy.decideSignal, rsiBullCondM, bullishCross, bearishCross,
    fieldAt, pyIdx, pyGt, pyLt, Except.bind, bind, pure, Except.pure,
    intToNat_ofNat, List.getD]

/-! ## C10 — stochastic J truthiness -/

/-- Config for the J-truthiness scenario: EMA period 1 so the trend filter
compares the last close with itself (downtrend). -/
def jCfg : HiddenDivergenceConfig := { ema_period := 1 }

/-- Indicator point with RSI, MACD and stochastic K/D present. -/
def jPoint (r m k d : ℚ) : IndicatorPoint :=
  { close_RSI_14 := some r, close_MACD_12_26_9 := some m,
    STOCHk_14_3_3 := some k, STOCHd_14_3_3 := some d }

/-- Indicator series whose current stochastic K is exactly 0 (present, but
falsy) while every other referenced value is present and non-zero. -/
def jEnv : IndicatorEnv :=
  { rsi := [jPoint 40 1 10 10, jPoint 40 1 10 10, jPoint 50 2 0 10],
    macd := [jPoint 40 1 10 10, jPoint 40 1 10 10, jPoint 50 2 0 10],
    stoch := [jPoint 40 1 10 10, jPoint 40 1 10 10, jPoint 50 2 0 10] }

/-- C10 counterexample: with current K = 0 (and K, D present), J is `None`
by truthiness, and the divergence branch then raises `TypeError` on
`current_kdj_j > swing_kdj_j` — the J sub-condition does not silently
contribute nothing; evaluation fails. -/
theorem hidden_j_zero_counterexample :
    jValue (some 0) (some 10) = none ∧
    HiddenDivergenceStrategy.generate_signal jCfg "X" wCandles (some jEnv) =
      (Except.error "TypeError: comparison not supported with None",
       ["rsi", "macd", "stoch"]) := by
  constructor
  · norm_num [jValue, truthyQ]
  · norm_num [HiddenDivergenceStrategy.generate_signal, HiddenDivergenceStrategy.body,
      jCfg, wCandles, jEnv, jPoint, calculate_ema, emaGo, emaEntry, pymean,
      detect_swing_points, pyIdx, pyLt, pyGt, fieldAt, jValue, truthyQ, hiddenHold,
      Except.bind, bind, pure, Except.pure, intToNat_ofNat, List.range',
      List.getD, List.getLast?, List.filter, List.all]

/-- C10 (amended): the derived stochastic J is `None` exactly when K or D is
missing or exactly 0 (Python truthiness), even though both inputs may be
present; and when a divergence branch is evaluated with such an undefined J,
the unguarded comparison raises `TypeError` (the evaluation errors) instead
of the J sub-condition contributing nothing. -/
theorem hidden_j_truthiness_amended :
    (∀ k d : Option ℚ, jValue k d = none ↔
      (k = none ∨ d = none ∨ k = some 0 ∨ d = some 0)) ∧
    (HiddenDivergenceStrategy.generate_signal jCfg "X" wCandles (some jEnv)).1 =
      Except.error "TypeError: comparison not supported with None" := by
  constructor
  · intro k d
    cases k with
    | none => simp [jValue, truthyQ]
    | some kv =>
      cases d with
      | none => simp [jValue, truthyQ]
      | some dv =>
        by_cases hk : kv = 0
        · simp [jValue, truthyQ, hk]
        · by_cases hd : dv = 0
          · simp [jValue, truthyQ, hk, hd]
          · simp [jValue, truthyQ, hk, hd]
  · norm_num [HiddenDivergenceStrategy.generate_signal, HiddenDivergenceStrategy.body,
      jCfg, wCandles, jEnv, jPoint, calculate_ema, emaGo, emaEntry, pymean,
      detect_swing_points, pyIdx, pyLt, pyGt, fieldAt, jValue, truthyQ, hiddenHold,
      Except.bind, bind, pure, Except.pure, intToNat_ofNat, List.range',
      List.getD, List.getLast?, List.filter, List.all]

/-! ## C6 — Bollinger guard -/

/-- C6: whenever the candle count is below
`max(bb_period, rsi_period, macd_slow, kdj_fast_k_period, volume_window) + 2`
or no provider is attached, `BollingerBandStrategy.generate_signal`
short-circuits to hold with an explicit skip reason and makes zero
indicator calls. -/
theorem bollinger_guards (cfg : BollingerConfig) (sym : String)
    (candles : List Candle) (prov : Option IndicatorEnv)
    (h : candles.length < bollingerMinCandles cfg ∨ prov = none) :
    ∃ r, BollingerBandStrategy.generate_signal cfg sym candles prov =
      (Except.ok { symbol := sym, strategy := "Bollinger Bands", signal := "hold",
                   reason := r, details := [] }, []) ∧
      (r = "Insufficient candles data" ∨ r = "Data provider not set") := by
  by_cases hlen : candles.length < bollingerMinCandles cfg
  · exact ⟨"Insufficient candles data",
      by simp [BollingerBandStrategy.generate_signal, hlen], Or.inl rfl⟩
  · have hprov : prov = none := by tauto
    subst hprov
    exact ⟨"Data provider not set",
      by simp [BollingerBandStrategy.generate_signal, hlen], Or.inr rfl⟩

/-- C6 witness: the guard fired on an empty candle list with a provider
attached. -/
theorem bollinger_guards_witness :
    (([] : List Candle).length < bollingerMinCandles {} ∨
      (some ({} : IndicatorEnv) : Option IndicatorEnv) = none) ∧
    ∃ r, BollingerBandStrategy.generate_signal {} "A" [] (some {}) =
      (Except.ok { symbol := "A", strategy := "Bollinger Bands", signal := "hold",
                   reason := r, details := [] }, []) ∧
      (r = "Insufficient candles data" ∨ r = "Data provider not set") :=
  ⟨Or.inl (by norm_num [bollingerMinCandles]),
   bollinger_guards {} "A" [] (some {}) (Or.inl (by norm_num [bollingerMinCandles]))⟩



/-! ## C3 — Divergence branch asymmetry -/

/-- Total (never-raising) form of the bullish RSI confirmation: RSI rising
while remaining below 30, false when a value is missing. -/
def rsiBullPure (cur prev : Option ℚ) : Bool :=
  match cur, prev with
  | some c, some p => decide (p < c) && decide (c < 30)
  | _, _ => false

/-- Total form of the bearish RSI confirmation: RSI falling while above 70. -/
def rsiBearPure (cur prev : Option ℚ) : Bool :=
  match cur, prev with
  | some c, some p => decide (c < p) && decide (70 < c)
  | _, _ => false

/-- Total form of `flag and value < threshold` (Python short-circuit). -/
def flagLtPure (flag : Bool) (v : Option ℚ) (t : ℚ) : Bool :=
  flag && (match v with | some x => decide (x < t) | none => false)

/-- Total form of `flag and value > threshold`. -/
def flagGtPure (flag : Bool) (v : Option ℚ) (t : ℚ) : Bool :=
  flag && (match v with | some x => decide (t < x) | none => false)

/-- Number of bullish confirmations of the Divergence strategy that hold:
RSI rising below 30; MACD bullish cross with MACD < 0; KDJ bullish cross
with K < 20. -/
def divBullCount (d : DivData) : ℕ :=
  (if rsiBullPure d.current_rsi d.previous_rsi then 1 else 0) +
  (if flagLtPure d.macd_bullish_cross d.current_macd 0 then 1 else 0) +
  (if flagLtPure d.kdj_bullish_cross d.current_kdj_k 20 then 1 else 0)

/-- Number of bearish confirmations of the Divergence strategy that hold:
RSI falling above 70; MACD bearish cross with MACD > 0; KDJ bearish cross
with K > 80. -/
def divBearCount (d : DivData) : ℕ :=
  (if rsiBearPure d.current_rsi d.previous_rsi then 1 else 0) +
  (if flagGtPure d.macd_bearish_cross d.current_macd 0 then 1 else 0) +
  (if flagGtPure d.kdj_bearish_cross d.current_kdj_k 80 then 1 else 0)

theorem except_bind_ok {α β : Type} {x : Except String α}
    {f : α → Except String β} {b : β}
    (h : (x >>= f) = Except.ok b) : ∃ a, x = Except.ok a ∧ f a = Except.ok b := by
  cases x with
  | ok a => exact ⟨a, rfl, h⟩
  | error e => exact absurd h (by simp [Bind.bind, Except.bind])

theorem rsiBullCondM_ok {c p : Option ℚ} {b : Bool}
    (h : rsiBullCondM c p = Except.ok b) : b = rsiBullPure c p := by
  cases c with
  | none => simp [rsiBullCondM, pyGt, Bind.bind, Except.bind] at h
  | some cv =>
    cases p with
    | none => simp [rsiBullCondM, pyGt, Bind.bind, Except.bind] at h
    | some pv =>
      by_cases hc : pv < cv <;>
        simp_all [rsiBullCondM, pyGt, pyLt, rsiBullPure, Bind.bind, Except.bind]

theorem rsiBearCondM_ok {c p : Option ℚ} {b : Bool}
    (h : rsiBearCondM c p = Except.ok b) : b = rsiBearPure c p := by
  cases c with
  | none => simp [rsiBearCondM, pyLt, Bind.bind, Except.bind] at h
  | some cv =>
    cases p with
    | none => simp [rsiBearCondM, pyLt, Bind.bind, Except.bind] at h
    | some pv =>
      by_cases hc : cv < pv <;>
        simp_all [rsiBearCondM, pyLt, pyGt, rsiBearPure, Bind.bind, Except.bind]

theorem flagLtCondM_ok {flag : Bool} {v : Option ℚ} {t : ℚ} {b : Bool}
    (h : (if flag then pyLt v (some t) else Except.ok false) = Except.ok b) :
    b = flagLtPure flag v t := by
  cases flag with
  | false => simp_all [flagLtPure]
  | true => cases v <;> simp_all [pyLt, flagLtPure]

theorem flagGtCondM_ok {flag : Bool} {v : Option ℚ} {t : ℚ} {b : Bool}
    (h : (if flag then pyGt v (some t) else Except.ok false) = Except.ok b) :
    b = flagGtPure flag v t := by
  cases flag with
  | false => simp_all [flagGtPure]
  | true => cases v <;> simp_all [pyGt, flagGtPure]

theorem concat3_length (b1 b2 b3 : Bool) (r1 r2 r3 : String) :
    ((if b1 then [r1] else []) ++ (if b2 then [r2] else []) ++
      (if b3 then [r3] else [])).length =
      (if b1 then 1 else 0) + (if b2 then 1 else 0) + (if b3 then 1 else 0) := by
  cases b1 <;> cases b2 <;> cases b3 <;> simp

theorem concat3_isEmpty (b1 b2 b3 : Bool) (r1 r2 r3 : String) :
    ((if b1 then [r1] else []) ++ (if b2 then [r2] else []) ++
      (if b3 then [r3] else [])).isEmpty = (!b1 && !b2 && !b3) := by
  cases b1 <;> cases b2 <;> cases b3 <;> simp

/-- Complete description of the `decideSignal` branch logic when it does
not raise. -/
theorem divergence_decideSignal_char {d : DivData} {sig : String}
    {reasons : List String}
    (h : DivergenceStrategy.decideSignal d = Except.ok (sig, reasons)) :
    (d.current_close < d.previous_close ∧
      sig = (if 2 ≤ divBullCount d ∧ 1.2 * d.previous_volume ≤ d.current_volume
             then "buy" else "hold")) ∨
    (d.previous_close < d.current_close ∧
      sig = (if 2 ≤ divBearCount d then "sell" else "hold")) ∨
    (d.current_close = d.previous_close ∧ sig = "hold") := by
  by_cases hlt : d.current_close < d.previous_close
  · left
    refine ⟨hlt, ?_⟩
    rw [DivergenceStrategy.decideSignal] at h
    simp only [hlt, if_true] at h
    obtain ⟨b1, hb1, h⟩ := except_bind_ok h
    obtain ⟨b2, hb2, h⟩ := except_bind_ok h
    obtain ⟨b3, hb3, h⟩ := except_bind_ok h
    rw [Except.ok.injEq, Prod.mk.injEq] at h
    obtain ⟨hsig, hreasons⟩ := h
    rw [rsiBullCondM_ok hb1] at hsig
    rw [flagLtCondM_ok hb2] at hsig
    rw [flagLtCondM_ok hb3] at hsig
    rw [← hsig, concat3_isEmpty, concat3_length]
    rw [divBullCount]
    cases hB1 : rsiBullPure d.current_rsi d.previous_rsi <;>
      cases hB2 : flagLtPure d.macd_bullish_cross d.current_macd 0 <;>
      cases hB3 : flagLtPure d.kdj_bullish_cross d.current_kdj_k 20 <;>
      by_cases hvol : 1.2 * d.previous_volume ≤ d.current_volume <;>
      simp [hvol]
  · by_cases hgt : d.previous_close < d.current_close
    · right; left
      refine ⟨hgt, ?_⟩
      rw [DivergenceStrategy.decideSignal] at h
      simp only [hlt, hgt, if_true, if_false] at h
      obtain ⟨b1, hb1, h⟩ := except_bind_ok h
      obtain ⟨b2, hb2, h⟩ := except_bind_ok h
      obtain ⟨b3, hb3, h⟩ := except_bind_ok h
      rw [Except.ok.injEq, Prod.mk.injEq] at h
      obtain ⟨hsig, hreasons⟩ := h
      rw [rsiBearCondM_ok hb1] at hsig
      rw [flagGtCondM_ok hb2] at hsig
      rw [flagGtCondM_ok hb3] at hsig
      rw [← hsig, concat3_isEmpty, concat3_length]
      rw [divBearCount]
      cases hB1 : rsiBearPure d.current_rsi d.previous_rsi <;>
        cases hB2 : flagGtPure d.macd_bearish_cross d.current_macd 0 <;>
        cases hB3 : flagGtPure d.kdj_bearish_cross d.current_kdj_k 80 <;>
        simp
    · right; right
      have heq : d.current_close = d.previous_close := le_antisymm
        (le_of_not_lt hgt) (le_of_not_lt hlt)
      refine ⟨heq, ?_⟩
      rw [DivergenceStrategy.decideSignal] at h
      simp only [hlt, hgt, if_false] at h
      rw [Except.ok.injEq, Prod.mk.injEq] at h
      exact h.1.symm

/-- C3: past the guards (≥ 3 candles, provider attached), whenever the
Divergence strategy completes without raising, the bullish branch
(current close < previous close) emits buy exactly when at least 2 of its 3
confirmations hold and current volume ≥ 1.2 × the previous single-period
volume, and the bearish branch (current close > previous close) emits sell
exactly when at least 2 of its 3 confirmations hold — with no volume gate;
every other case holds. -/
theorem divergence_branch_asymmetry
    (cfg : DivergenceConfig) (sym : String) (candles : List Candle)
    (env : IndicatorEnv) (d : DivData) (s : SignalModel) (calls : List String)
    (h3 : 3 ≤ candles.length)
    (hx : DivergenceStrategy.extract candles env = Except.ok d)
    (hg : DivergenceStrategy.generate_signal cfg sym candles (some env) =
      (Except.ok s, calls)) :
    (s.signal = "buy" ↔ d.current_close < d.previous_close ∧
        2 ≤ divBullCount d ∧ 1.2 * d.previous_volume ≤ d.current_volume) ∧
    (s.signal = "sell" ↔ d.previous_close < d.current_close ∧ 2 ≤ divBearCount d) ∧
    (s.signal ≠ "buy" → s.signal ≠ "sell" → s.signal = "hold") := by
  rw [DivergenceStrategy.generate_signal] at hg
  rw [if_neg (by omega)] at hg
  rw [Prod.mk.injEq] at hg
  obtain ⟨hbody, -⟩ := hg
  obtain ⟨d', hd', hbody⟩ := except_bind_ok hbody
  rw [hx, Except.ok.injEq] at hd'
  subst hd'
  obtain ⟨sr, hsr, hbody⟩ := except_bind_ok hbody
  rw [Except.ok.injEq] at hbody
  obtain ⟨sig, reasons⟩ := sr
  have hchar := divergence_decideSignal_char hsr
  have hsignal : s.signal = sig := by rw [← hbody]
  rcases hchar with ⟨hlt, hsig⟩ | ⟨hgt, hsig⟩ | ⟨heq, hsig⟩
  · have hnotgt : ¬ d.previous_close < d.current_close := by
      exact lt_asymm hlt
    subst hsig
    by_cases hcond : 2 ≤ divBullCount d ∧ 1.2 * d.previous_volume ≤ d.current_volume
    · simp [hsignal, hcond, hlt, hnotgt]
    · simp [hsignal, hcond, hlt, hnotgt]
  · have hnotlt : ¬ d.current_close < d.previous_close := lt_asymm hgt
    subst hsig
    by_cases hcond : 2 ≤ divBearCount d
    · simp [hsignal, hcond, hgt, hnotlt]
    · simp [hsignal, hcond, hgt, hnotlt]
  · have hnotlt : ¬ d.current_close < d.previous_close := by rw [heq]; exact lt_irrefl _
    have hnotgt : ¬ d.previous_close < d.current_close := by rw [heq]; exact lt_irrefl _
    subst hsig
    simp [hsignal, hnotlt, hnotgt]

/-- Candle series for the C3 witness: closes rising 3 → 4 → 5. -/
def dwCandles : List Candle :=
  [{ close := 3, volume := 1 }, { close := 4, volume := 1 },
   { close := 5, volume := 1 }]

/-- Indicator point with all five referenced fields present. -/
def dwPoint (r m ms k d : ℚ) : IndicatorPoint :=
  { close_RSI_14 := some r, close_MACD_12_26_9 := some m,
    close_MACDs_12_26_9 := some ms, STOCHk_14_3_3 := some k,
    STOCHd_14_3_3 := some d }

/-- Indicator series for the C3 witness: RSI falling above 70, MACD bearish
cross with MACD above 0, stochastic flat (no cross). -/
def dwEnv : IndicatorEnv :=
  { rsi := [dwPoint 50 0 0 50 50, dwPoint 80 2 1 50 50, dwPoint 75 1 2 50 50],
    macd := [dwPoint 50 0 0 50 50, dwPoint 80 2 1 50 50, dwPoint 75 1 2 50 50],
    stoch := [dwPoint 50 0 0 50 50, dwPoint 80 2 1 50 50, dwPoint 75 1 2 50 50] }

/-- The extracted values for the C3 witness scenario. -/
def dwData : DivData :=
  { previous_close := 4, current_close := 5,
    previous_volume := 1, current_volume := 1,
    previous_rsi := some 80, current_rsi := some 75,
    previous_macd := some 2, current_macd := some 1,
    previous_macd_signal := some 1, current_macd_signal := some 2,
    previous_kdj_k := some 50, previous_kdj_d := some 50,
    current_kdj_k := some 50, current_kdj_d := some 50,
    macd_bullish_cross := false, macd_bearish_cross := true,
    kdj_bullish_cross := false, kdj_bearish_cross := false }

/-- The resulting signal for the C3 witness scenario: two bearish
confirmations, hence sell (with no volume gate). -/
def dwModel : SignalModel :=
  { symbol := "W", strategy := "Divergence", signal := "sell",
    reason := "Bearish RSI divergence; Bearish MACD cross-over", details := [] }

/-- C3 witness: the branch characterization applied to the concrete bearish
scenario `dwCandles`/`dwEnv`, where the strategy emits sell on two of three
confirmations without any volume condition. -/
theorem divergence_branch_asymmetry_witness :
    (3 ≤ dwCandles.length ∧
      DivergenceStrategy.extract dwCandles dwEnv = Except.ok dwData ∧
      DivergenceStrategy.generate_signal {} "W" dwCandles (some dwEnv) =
        (Except.ok dwModel, ["rsi", "macd", "stoch"])) ∧
    ((dwModel.signal = "buy" ↔ dwData.current_close < dwData.previous_close ∧
        2 ≤ divBullCount dwData ∧
        1.2 * dwData.previous_volume ≤ dwData.current_volume) ∧
     (dwModel.signal = "sell" ↔ dwData.previous_close < dwData.current_close ∧
        2 ≤ divBearCount dwData) ∧
     (dwModel.signal ≠ "buy" → dwModel.signal ≠ "sell" → dwModel.signal = "hold")) :=
  ⟨⟨by norm_num [dwCandles],
    by norm_num [DivergenceStrategy.extract, dwCandles, dwEnv, dwPoint, dwData,
      fieldAt, pyIdx, bullishCross, bearishCross, intToNat_ofNat,
      Except.bind, bind, pure, Except.pure],
    (by
      norm_num [DivergenceStrategy.generate_signal, DivergenceStrategy.extract,
        DivergenceStrategy.decideSignal, rsiBullCondM, rsiBearCondM,
        flagLtCondM, flagGtCondM, dwCandles, dwEnv, dwPoint, dwModel,
        fieldAt, pyIdx, pyLt, pyGt, bullishCross, bearishCross, intToNat_ofNat,
        Except.bind, bind, pure, Except.pure]
      rfl)⟩,
   divergence_branch_asymmetry {} "W" dwCandles dwEnv dwData dwModel
     ["rsi", "macd", "stoch"]
     (by norm_num [dwCandles])
     (by norm_num [DivergenceStrategy.extract, dwCandles, dwEnv, dwPoint, dwData,
       fieldAt, pyIdx, bullishCross, bearishCross, intToNat_ofNat,
       Except.bind, bind, pure, Except.pure])
     (by
       norm_num [DivergenceStrategy.generate_signal, DivergenceStrategy.extract,
         DivergenceStrategy.decideSignal, rsiBullCondM, rsiBearCondM,
         flagLtCondM, flagGtCondM, dwCandles, dwEnv, dwPoint, dwModel,
         fieldAt, pyIdx, pyLt, pyGt, bullishCross, bearishCross, intToNat_ofNat,
         Except.bind, bind, pure, Except.pure]
       rfl)⟩



/-! ## C5 — MovingAverageCrossover conjunction -/

theorem ma_decide_char (d : MAData) :
    ((MAStrategy.decideSignal d).1 = "buy" ↔
      d.ema_sma_bullish = true ∧ d.macd_bullish = true ∧
      (∃ r, d.curr_rsi = some r ∧ r < 30) ∧ d.vol_rise = true) ∧
    ((MAStrategy.decideSignal d).1 = "sell" ↔
      d.ema_sma_bearish = true ∧ d.macd_bearish = true ∧
      (∃ r, d.curr_rsi = some r ∧ 70 < r) ∧ d.vol_rise = true) ∧
    ((MAStrategy.decideSignal d).1 = "buy" ∨ (MAStrategy.decideSignal d).1 = "sell" ∨
      (MAStrategy.decideSignal d).1 = "hold") := by
  obtain ⟨b1, b2, b3, b4, cr, vr⟩ := d
  cases cr with
  | none =>
    cases b1 <;> cases b2 <;> cases b3 <;> cases b4 <;> cases vr <;>
      simp [MAStrategy.decideSignal]
  | some r =>
    by_cases h30 : r < 30 <;> by_cases h70 : 70 < r
    · linarith
    all_goals
      cases b1 <;> cases b2 <;> cases b3 <;> cases b4 <;> cases vr <;>
        simp [MAStrategy.decideSignal, h30, h70]

/-- C5: past the provider guard, whenever the MovingAverageCrossover
strategy completes without raising, it emits buy exactly when the EMA/SMA
bullish crossover, the MACD bullish crossover, current RSI < 30 and the
volume surge all hold simultaneously, sell exactly on the four bearish
mirrors with RSI > 70, hold otherwise; the diagnostic reasons are the
independent accumulation `MAStrategy.reasonsList` whatever the decision;
and the volume surge holds exactly when current volume > 1.2 × the average
volume of the `volume_window` preceding periods (current excluded). -/
theorem ma_crossover_conjunction
    (cfg : MAConfig) (sym : String) (candles : List Candle) (env : IndicatorEnv)
    (d : MAData) (s : SignalModel) (calls : List String)
    (hx : MAStrategy.extract cfg candles env = Except.ok d)
    (hg : MAStrategy.generate_signal cfg sym candles (some env) =
      (Except.ok s, calls)) :
    (s.signal = "buy" ↔ d.ema_sma_bullish = true ∧ d.macd_bullish = true ∧
       (∃ r, d.curr_rsi = some r ∧ r < 30) ∧ d.vol_rise = true) ∧
    (s.signal = "sell" ↔ d.ema_sma_bearish = true ∧ d.macd_bearish = true ∧
       (∃ r, d.curr_rsi = some r ∧ 70 < r) ∧ d.vol_rise = true) ∧
    (s.signal ≠ "buy" → s.signal ≠ "sell" → s.signal = "hold") ∧
    s.reason = (if (MAStrategy.reasonsList d).isEmpty then "No Signal Detected"
                else String.intercalate "; " (MAStrategy.reasonsList d)) ∧
    (d.vol_rise = true ↔ cfg.volume_window + 1 ≤ candles.length ∧
       1.2 * trailingAvgVol (candles.map (·.volume)) cfg.volume_window <
         (candles.map (·.volume)).getLastD 0) := by
  rw [MAStrategy.generate_signal, Prod.mk.injEq] at hg
  obtain ⟨hbody, -⟩ := hg
  obtain ⟨d', hd', hbody⟩ := except_bind_ok hbody
  rw [hx, Except.ok.injEq] at hd'
  subst hd'
  rw [Except.ok.injEq] at hbody
  have hsignal : s.signal = (MAStrategy.decideSignal d).1 := by rw [← hbody]
  have hreason : s.reason =
      (if (MAStrategy.reasonsList d).isEmpty then "No Signal Detected"
       else String.intercalate "; " (MAStrategy.reasonsList d)) := by
    rw [← hbody]
    simp [MAStrategy.decideSignal]
  have hvol : d.vol_rise =
      MAStrategy.volRise (candles.map (·.volume)) cfg.volume_window := by
    obtain ⟨a, ha, hx2⟩ := except_bind_ok hx
    obtain ⟨b, hb, hx2⟩ := except_bind_ok hx2
    obtain ⟨c, hc, hx2⟩ := except_bind_ok hx2
    rw [Except.ok.injEq] at hx2
    rw [← hx2]
  obtain ⟨hbuy, hsell, hcases⟩ := ma_decide_char d
  refine ⟨hsignal ▸ hbuy, hsignal ▸ hsell, ?_, hreason, ?_⟩
  · intro hb hs
    rcases hcases with h | h | h
    · exact absurd (hsignal.trans h) hb
    · exact absurd (hsignal.trans h) hs
    · exact hsignal.trans h
  · rw [hvol, MAStrategy.volRise]
    by_cases hlen : cfg.volume_window + 1 ≤ (candles.map (·.volume)).length
    · rw [if_pos hlen]
      rw [List.length_map] at hlen
      simp [hlen]
    · rw [if_neg hlen]
      rw [List.length_map] at hlen
      simp [hlen]

/-- Candle series for the C5 witness: six candles, flat volume 10 then a
final volume of 13 (a 30% surge over the trailing average). -/
def mwCandles : List Candle :=
  [{ close := 1, volume := 10 }, { close := 1, volume := 10 },
   { close := 1, volume := 10 }, { close := 1, volume := 10 },
   { close := 1, volume := 10 }, { close := 1, volume := 13 }]

/-- Indicator series for the C5 witness: EMA crossing above SMA, MACD
crossing above its signal, RSI 25. -/
def mwEnv : IndicatorEnv :=
  { ema := [{ close_EMA_10 := some 1 }, { close_EMA_10 := some 3 }],
    sma := [{ close_SMA_20 := some 2 }, { close_SMA_20 := some 2 }],
    macd := [{ close_MACD_12_26_9 := some 0, close_MACDs_12_26_9 := some 0 },
             { close_MACD_12_26_9 := some 1, close_MACDs_12_26_9 := some 0 }],
    rsi := [{ close_RSI_14 := some 25 }] }

/-- The extracted condition values for the C5 witness scenario. -/
def mwData : MAData :=
  { ema_sma_bullish := true, ema_sma_bearish := false,
    macd_bullish := true, macd_bearish := false,
    curr_rsi := some 25, vol_rise := true }

/-- The resulting signal for the C5 witness scenario: all four bullish
conditions hold, hence buy. -/
def mwModel : SignalModel :=
  { symbol := "M", strategy := "Moving Average", signal := "buy",
    reason := "EMA crosses above SMA (bullish); MACD bullish crossover; Volume surge",
    details := [] }

/-- C5 witness: the conjunction characterization applied to the concrete
all-four-conditions scenario `mwCandles`/`mwEnv`, which emits buy. -/
theorem ma_crossover_conjunction_witness :
    (MAStrategy.extract {} mwCandles mwEnv = Except.ok mwData ∧
      MAStrategy.generate_signal {} "M" mwCandles (some mwEnv) =
        (Except.ok mwModel, ["ema", "sma", "macd", "rsi"])) ∧
    ((mwModel.signal = "buy" ↔ mwData.ema_sma_bullish = true ∧
        mwData.macd_bullish = true ∧
        (∃ r, mwData.curr_rsi = some r ∧ r < 30) ∧ mwData.vol_rise = true) ∧
     (mwModel.signal = "sell" ↔ mwData.ema_sma_bearish = true ∧
        mwData.macd_bearish = true ∧
        (∃ r, mwData.curr_rsi = some r ∧ 70 < r) ∧ mwData.vol_rise = true) ∧
     (mwModel.signal ≠ "buy" → mwModel.signal ≠ "sell" → mwModel.signal = "hold") ∧
     mwModel.reason =
       (if (MAStrategy.reasonsList mwData).isEmpty then "No Signal Detected"
        else String.intercalate "; " (MAStrategy.reasonsList mwData)) ∧
     (mwData.vol_rise = true ↔ ({} : MAConfig).volume_window + 1 ≤ mwCandles.length ∧
        1.2 * trailingAvgVol (mwCandles.map (·.volume)) ({} : MAConfig).volume_window <
          (mwCandles.map (·.volume)).getLastD 0)) :=
  ⟨⟨by norm_num [MAStrategy.extract, MAStrategy.emaSmaFlags, MAStrategy.macdFlags,
      MAStrategy.volRise, trailingAvgVol, mwCandles, mwEnv, mwData,
      fieldAt, pyIdx, pyLt, pyGt, pyLe, pyGe, intToNat_ofNat,
      List.getLastD, List.getLast?, Except.bind, bind, pure, Except.pure],
    (by
      norm_num [MAStrategy.generate_signal, MAStrategy.extract,
        MAStrategy.emaSmaFlags, MAStrategy.macdFlags, MAStrategy.volRise,
        MAStrategy.decideSignal, MAStrategy.reasonsList, trailingAvgVol,
        mwCandles, mwEnv, mwModel,
        fieldAt, pyIdx, pyLt, pyGt, pyLe, pyGe, intToNat_ofNat,
        List.getLastD, List.getLast?, Except.bind, bind, pure, Except.pure]
      rfl)⟩,
   ma_crossover_conjunction {} "M" mwCandles mwEnv mwData mwModel
     ["ema", "sma", "macd", "rsi"]
     (by norm_num [MAStrategy.extract, MAStrategy.emaSmaFlags, MAStrategy.macdFlags,
       MAStrategy.volRise, trailingAvgVol, mwCandles, mwEnv, mwData,
       fieldAt, pyIdx, pyLt, pyGt, pyLe, pyGe, intToNat_ofNat,
       List.getLastD, List.getLast?, Except.bind, bind, pure, Except.pure])
     (by
       norm_num [MAStrategy.generate_signal, MAStrategy.extract,
         MAStrategy.emaSmaFlags, MAStrategy.macdFlags, MAStrategy.volRise,
         MAStrategy.decideSignal, MAStrategy.reasonsList, trailingAvgVol,
         mwCandles, mwEnv, mwModel,
         fieldAt, pyIdx, pyLt, pyGt, pyLe, pyGe, intToNat_ofNat,
         List.getLastD, List.getLast?, Except.bind, bind, pure, Except.pure]
       rfl)⟩



/-! ## C7 — runner fault isolation and single digest -/

theorem collectLoop_collected (outcomes : List (String × Except String (List SignalModel))) :
    (collectLoop outcomes).1 = outcomes.filterMap (fun e =>
      match e.2 with
      | Except.ok sigs => some (e.1, sigs)
      | Except.error _ => none) := by
  induction outcomes with
  | nil => rfl
  | cons e rest ih =>
    obtain ⟨sym, outcome⟩ := e
    cases outcome <;> simp [collectLoop, ih]

theorem collectLoop_errors (outcomes : List (String × Except String (List SignalModel))) :
    (collectLoop outcomes).2 = outcomes.filterMap (fun e =>
      match e.2 with
      | Except.ok _ => none
      | Except.error msg =>
        some ("Error running bot for symbol " ++ e.1 ++ ": " ++ msg)) := by
  induction outcomes with
  | nil => rfl
  | cons e rest ih =>
    obtain ⟨sym, outcome⟩ := e
    cases outcome <;> simp [collectLoop, ih]

/-- C7: over a full pass, a failing symbol contributes exactly one caught
error log and zero signals while every other symbol is still processed in
order (`collected` is exactly the ordered successes); one digest holding
one `signalLine` per collected signal is dispatched exactly once when any
signal was collected; and — given that every successful symbol run yields a
non-empty signal list, as `TradeBot.run` does (one `SignalModel` per
configured strategy) — no notification at all is sent when zero signals
were collected. -/
theorem run_all_bots_spec (today : String)
    (outcomes : List (String × Except String (List SignalModel)))
    (hne : ∀ e ∈ outcomes, ∀ sigs, e.2 = Except.ok sigs → sigs ≠ []) :
    (run_all_bots today outcomes).collected = outcomes.filterMap (fun e =>
      match e.2 with
      | Except.ok sigs => some (e.1, sigs)
      | Except.error _ => none) ∧
    (run_all_bots today outcomes).errorLogs = outcomes.filterMap (fun e =>
      match e.2 with
      | Except.ok _ => none
      | Except.error msg =>
        some ("Error running bot for symbol " ++ e.1 ++ ": " ++ msg)) ∧
    (run_all_bots today outcomes).sent =
      (if signalLines (run_all_bots today outcomes).collected = [] then []
       else [digestMessage today (run_all_bots today outcomes).collected]) ∧
    (signalLines (run_all_bots today outcomes).collected).length =
      ((run_all_bots today outcomes).collected.map (fun e => e.2.length)).sum := by
  have hcol : (run_all_bots today outcomes).collected = (collectLoop outcomes).1 := by
    rw [run_all_bots]
    split <;> rfl
  have herr : (run_all_bots today outcomes).errorLogs = (collectLoop outcomes).2 := by
    rw [run_all_bots]
    split <;> rfl
  refine ⟨hcol.trans (collectLoop_collected outcomes),
          herr.trans (collectLoop_errors outcomes), ?_, ?_⟩
  · have hiff : (collectLoop outcomes).1.isEmpty = true ↔
        signalLines (collectLoop outcomes).1 = [] := by
      constructor
      · intro h
        rw [List.isEmpty_eq_true] at h
        rw [h]
        rfl
      · intro h
        rw [List.isEmpty_eq_true]
        cases hc : (collectLoop outcomes).1 with
        | nil => rfl
        | cons entry rest =>
          exfalso
          have hmem : entry ∈ (collectLoop outcomes).1 := by
            rw [hc]
            exact List.mem_cons_self _ _
          rw [collectLoop_collected outcomes, List.mem_filterMap] at hmem
          obtain ⟨a, ha, hfa⟩ := hmem
          have hsigs : entry.2 ≠ [] := by
            cases hs : a.2 with
            | ok sigs =>
              rw [hs] at hfa
              have hpair : (a.1, sigs) = entry := by simpa using hfa
              rw [← hpair]
              exact hne a ha sigs hs
            | error msg => rw [hs] at hfa; simp at hfa
          rw [hc] at h
          have hne2 : signalLines (entry :: rest) ≠ [] := by
            simp only [signalLines, List.flatMap_cons]
            intro hx
            rcases List.append_eq_nil.mp hx with ⟨h1, -⟩
            exact hsigs (List.map_eq_nil.mp h1)
          exact hne2 h
    rw [hcol]
    by_cases hemp : (collectLoop outcomes).1.isEmpty = true
    · have hrun : run_all_bots today outcomes =
          { collected := (collectLoop outcomes).1,
            errorLogs := (collectLoop outcomes).2, sent := [] } := by
        simp only [run_all_bots]
        rw [if_pos hemp]
      rw [hrun]
      simp [hiff.mp hemp]
    · have hrun : run_all_bots today outcomes =
          { collected := (collectLoop outcomes).1,
            errorLogs := (collectLoop outcomes).2,
            sent := [digestMessage today (collectLoop outcomes).1] } := by
        simp only [run_all_bots]
        rw [if_neg hemp]
      rw [hrun]
      have hsl : ¬ signalLines (collectLoop outcomes).1 = [] := fun hx =>
        hemp (hiff.mpr hx)
      simp [hsl]
  · rw [signalLines, List.length_flatMap]
    congr 1
    refine List.map_congr_left ?_
    intro e he
    simp

/-- Signal values for the C7 witness. -/
def rwSig (sym sig : String) : SignalModel :=
  { symbol := sym, strategy := "Divergence", signal := sig, reason := "r",
    details := [] }

/-- Outcomes for the C7 witness: three symbols, the second raising a
provider error. -/
def rwOutcomes : List (String × Except String (List SignalModel)) :=
  [("A", Except.ok [rwSig "A" "buy"]),
   ("B", Except.error "boom"),
   ("C", Except.ok [rwSig "C" "hold"])]

/-- C7 witness: the runner specification applied to a three-symbol pass
whose second symbol fails — two collected groups, one error log, one digest
of two lines. -/
theorem run_all_bots_spec_witness :
    (∀ e ∈ rwOutcomes, ∀ sigs, e.2 = Except.ok sigs → sigs ≠ []) ∧
    ((run_all_bots "2026-10-12" rwOutcomes).collected = rwOutcomes.filterMap (fun e =>
      match e.2 with
      | Except.ok sigs => some (e.1, sigs)
      | Except.error _ => none) ∧
    (run_all_bots "2026-10-12" rwOutcomes).errorLogs = rwOutcomes.filterMap (fun e =>
      match e.2 with
      | Except.ok _ => none
      | Except.error msg =>
        some ("Error running bot for symbol " ++ e.1 ++ ": " ++ msg)) ∧
    (run_all_bots "2026-10-12" rwOutcomes).sent =
      (if signalLines (run_all_bots "2026-10-12" rwOutcomes).collected = [] then []
       else [digestMessage "2026-10-12" (run_all_bots "2026-10-12" rwOutcomes).collected]) ∧
    (signalLines (run_all_bots "2026-10-12" rwOutcomes).collected).length =
      ((run_all_bots "2026-10-12" rwOutcomes).collected.map (fun e => e.2.length)).sum) :=
  ⟨by
    intro e he sigs hs
    simp only [rwOutcomes, List.mem_cons, List.not_mem_nil, or_false] at he
    rcases he with rfl | rfl | rfl <;> simp_all <;> subst hs <;> simp,
   run_all_bots_spec "2026-10-12" rwOutcomes (by
    intro e he sigs hs
    simp only [rwOutcomes, List.mem_cons, List.not_mem_nil, or_false] at he
    rcases he with rfl | rfl | rfl <;> simp_all <;> subst hs <;> simp)⟩

/-! ## C8 — strategies are deterministic and stateless -/

/-- State-threaded call of `DivergenceStrategy.generate_signal`: the Python
method body contains no assignment to `self`, so the attribute record after
the call is the attribute record before it. -/
def DivergenceStrategy.generate_signal_st (cfg : DivergenceConfig)
    (symbol : String) (candles : List Candle) (provider : Option IndicatorEnv) :
    (Except String SignalModel × List String) × DivergenceConfig :=
  (DivergenceStrategy.generate_signal cfg symbol candles provider, cfg)

/-- State-threaded call of `HiddenDivergenceStrategy.generate_signal`
(no assignment to `self` in the method body). -/
def HiddenDivergenceStrategy.generate_signal_st (cfg : HiddenDivergenceConfig)
    (symbol : String) (candles : List Candle) (provider : Option IndicatorEnv) :
    (Except String SignalModel × List String) × HiddenDivergenceConfig :=
  (HiddenDivergenceStrategy.generate_signal cfg symbol candles provider, cfg)

/-- State-threaded call of `MAStrategy.generate_signal` (no assignment to
`self` in the method body). -/
def MAStrategy.generate_signal_st (cfg : MAConfig)
    (symbol : String) (candles : List Candle) (provider : Option IndicatorEnv) :
    (Except String SignalModel × List String) × MAConfig :=
  (MAStrategy.generate_signal cfg symbol candles provider, cfg)

/-- State-threaded call of `BollingerBandStrategy.generate_signal`
(no assignment to `self` in the method body). -/
def BollingerBandStrategy.generate_signal_st (cfg : BollingerConfig)
    (symbol : String) (candles : List Candle) (provider : Option IndicatorEnv) :
    (Except String SignalModel × List String) × BollingerConfig :=
  (BollingerBandStrategy.generate_signal cfg symbol candles provider, cfg)

/-- C8: for each of the four strategies, a call leaves the instance state
(the constructor-set attribute record) unchanged, and an immediate second
call on that post-call state with the same candle input and the same
provider responses returns the identical `SignalModel` result (and the
identical indicator-call list). -/
theorem strategies_idempotent :
    (∀ (cfg : DivergenceConfig) (sym : String) (candles : List Candle)
       (prov : Option IndicatorEnv),
       (DivergenceStrategy.generate_signal_st cfg sym candles prov).2 = cfg ∧
       (DivergenceStrategy.generate_signal_st
         (DivergenceStrategy.generate_signal_st cfg sym candles prov).2
         sym candles prov).1 =
       (DivergenceStrategy.generate_signal_st cfg sym candles prov).1) ∧
    (∀ (cfg : HiddenDivergenceConfig) (sym : String) (candles : List Candle)
       (prov : Option IndicatorEnv),
       (HiddenDivergenceStrategy.generate_signal_st cfg sym candles prov).2 = cfg ∧
       (HiddenDivergenceStrategy.generate_signal_st
         (HiddenDivergenceStrategy.generate_signal_st cfg sym candles prov).2
         sym candles prov).1 =
       (HiddenDivergenceStrategy.generate_signal_st cfg sym candles prov).1) ∧
    (∀ (cfg : MAConfig) (sym : String) (candles : List Candle)
       (prov : Option IndicatorEnv),
       (MAStrategy.generate_signal_st cfg sym candles prov).2 = cfg ∧
       (MAStrategy.generate_signal_st
         (MAStrategy.generate_signal_st cfg sym candles prov).2 sym candles prov).1 =
       (MAStrategy.generate_signal_st cfg sym candles prov).1) ∧
    (∀ (cfg : BollingerConfig) (sym : String) (candles : List Candle)
       (prov : Option IndicatorEnv),
       (BollingerBandStrategy.generate_signal_st cfg sym candles prov).2 = cfg ∧
       (BollingerBandStrategy.generate_signal_st
         (BollingerBandStrategy.generate_signal_st cfg sym candles prov).2
         sym candles prov).1 =
       (BollingerBandStrategy.generate_signal_st cfg sym candles prov).1) :=
  ⟨fun _ _ _ _ => ⟨rfl, rfl⟩, fun _ _ _ _ => ⟨rfl, rfl⟩,
   fun _ _ _ _ => ⟨rfl, rfl⟩, fun _ _ _ _ => ⟨rfl, rfl⟩⟩


end TraderCat
